import Mathlib

/-!
Verification development for the Internet Usage Tracker extension.

The definitions below are a shallow embedding of the session tracking,
sync reconciliation and statistics code of the repository:
the `SyncManager` object (validateUser, sync, archiveLocally,
queueFailedSync, pruneArchive), the background tracker
(startSession, endCurrentSession, updateCurrentSession, performSync,
getStats and the message handlers saveConfig and clearData) and the
utility predicate `isTrackableUrl` from utils.js.

External effects (network fetch results, the online flag, clock reads,
the active-tab query) are passed in explicitly as environment values;
the durable key-value store is explicit state.  JS numbers holding Unix
timestamps are modelled as `Int`; JS falsiness of a string is equality
with the empty string; an absent JS object key is `Option.none`.
-/

namespace ITracker

/-- A visit session, as built by `startSession` in the background script. -/
structure Session where
  url : String
  domain : String
  title : String
  startTimestamp : Int
  endTimestamp : Option Int
  durationSeconds : Int
  tabId : Nat
  incognito : Bool
deriving Repr, DecidableEq

/-- An archive entry: a session together with the archived-at stamp that
`archiveLocally` spreads onto it. -/
structure ArchivedSession where
  session : Session
  archivedAt : Int
deriving Repr, DecidableEq

/-- The device profile sub-record of the configuration. -/
structure DeviceProfile where
  dtype : String
  name : String
  browser : String
  os : String
deriving Repr, DecidableEq

/-- The extension configuration (shape of `DEFAULT_CONFIG` in the
background script). -/
structure Config where
  apiEndpoint : String
  apiKey : String
  syncIntervalMinutes : Int
  userId : String
  deviceProfile : DeviceProfile
  idleDetectionEnabled : Bool
  idleThresholdMinutes : Int
  archiveRetentionDays : Int
deriving Repr, DecidableEq

/-- A configuration object arriving in a `saveConfig` message.  A JS
object may omit any key, so every field is optional; an omitted field is
`none`. -/
structure ConfigUpdate where
  apiEndpoint : Option String
  apiKey : Option String
  syncIntervalMinutes : Option Int
  userId : Option String
  deviceProfile : Option DeviceProfile
  idleDetectionEnabled : Option Bool
  idleThresholdMinutes : Option Int
  archiveRetentionDays : Option Int
deriving Repr, DecidableEq

/-- The browser tab data the tracker reads.  `title` is the empty string
when the tab has no title (JS falsiness). -/
structure Tab where
  url : String
  title : String
  id : Nat
  incognito : Bool
deriving Repr, DecidableEq

/-- In-memory background state (`TrackerState` in the source), restricted
to the fields the tracking and sync logic reads and writes. -/
structure TrackerState where
  currentSession : Option Session
  isIdle : Bool
  pendingSessions : List Session
  config : Config
  deviceId : String
deriving Repr, DecidableEq

/-- The durable storage slots touched by the sync manager. -/
structure SyncState where
  archive : List ArchivedSession
  failedSyncs : List Session
deriving Repr, DecidableEq

/-- The structured result object returned by `SyncManager.sync`. -/
structure SyncResult where
  success : Bool
  synced : Option Nat
  archived : Option Nat
  queued : Option Nat
  error : Option String
deriving Repr, DecidableEq

/-- Outcomes of the external world during one `sync` call: the result of
the `is_valid_user` RPC fetch, the `navigator.onLine` flag, the result of
the insert request, and the clock value used for archived-at stamps. -/
structure SyncEnv where
  rpc : Except String Bool
  online : Bool
  send : Except String Unit
  now : Int
deriving Repr

/-- Result object of `SyncManager.validateUser`. -/
structure ValidationResult where
  valid : Bool
  error : Option String
deriving Repr, DecidableEq

/-- The durable key-value store slots of the extension
(`browser.storage.local`): a `none` slot is an absent key. -/
structure StorageState where
  deviceId : Option String
  config : Option Config
  pendingSessions : Option (List Session)
  archive : Option (List ArchivedSession)
  failedSyncs : Option (List Session)
deriving Repr, DecidableEq

/-! ## Utils (utils.js) -/

/-- `Utils.isTrackableUrl`: a URL is tracked unless it is empty (falsy)
or starts with one of the excluded internal protocols. -/
def isTrackableUrl (url : String) : Bool :=
  if url = "" then false
  else
    let excludedProtocols := ["about:", "moz-extension:", "chrome:", "file:", "data:", "javascript:"]
    !(excludedProtocols.any (fun protocol => url.startsWith protocol))

/-! ## SyncManager (sync manager script) -/

/-- `SyncManager.validateUser`: fails fast on missing configuration or
user id, otherwise reports the RPC outcome; a transport error is caught
and surfaced as an invalid result carrying the message. -/
def validateUser (userId : String) (config : Config) (rpc : Except String Bool) :
    ValidationResult :=
  if config.apiEndpoint = "" ∨ config.apiKey = "" then
    { valid := false, error := some "API not configured" }
  else if userId = "" then
    { valid := false, error := some "User ID not set" }
  else
    match rpc with
    | Except.ok true => { valid := true, error := none }
    | Except.ok false =>
        { valid := false
          error := some "User not authorized. Email dhondpratyay@gmail.com to request access." }
    | Except.error e => { valid := false, error := some e }

/-- `SyncManager.archiveLocally`: stamps each session with archived-at =
now and appends the batch to the archive. -/
def archiveLocally (sessions : List Session) (now : Int)
    (archive : List ArchivedSession) : List ArchivedSession :=
  archive ++ sessions.map (fun session => { session := session, archivedAt := now })

/-- `SyncManager.queueFailedSync`: appends the sessions whose
start-timestamp is not among the start-timestamps already in the failed
queue; the set of existing timestamps is computed once, before the
filter. -/
def queueFailedSync (sessions : List Session) (failedSyncs : List Session) :
    List Session :=
  let existingTimestamps := failedSyncs.map (fun s => s.startTimestamp)
  failedSyncs ++ sessions.filter (fun s => !(existingTimestamps.contains s.startTimestamp))

/-- `SyncManager.pruneArchive`: keeps an archive entry when its
archived-at or its start-timestamp is strictly greater than
now minus retentionDays days. -/
def pruneArchive (retentionDays : Int) (now : Int)
    (archive : List ArchivedSession) : List ArchivedSession :=
  let cutoffTimestamp := now - retentionDays * 24 * 60 * 60
  archive.filter (fun session =>
    decide (session.archivedAt > cutoffTimestamp) ||
    decide (session.session.startTimestamp > cutoffTimestamp))

/-- `SyncManager.sync`: the branch structure of the source, in order —
empty input, unconfigured API, failed user validation, offline check,
then the transmission attempt with its success and failure paths. -/
def sync (sessions : List Session) (config : Config) (env : SyncEnv)
    (st : SyncState) : SyncResult × SyncState :=
  if sessions.length = 0 then
    ({ success := true, synced := some 0, archived := none, queued := none, error := none }, st)
  else if config.apiEndpoint = "" ∨ config.apiKey = "" then
    ({ success := true, synced := some 0, archived := some sessions.length,
       queued := none, error := none },
     { st with archive := archiveLocally sessions env.now st.archive })
  else
    let validation := validateUser config.userId config env.rpc
    if !validation.valid then
      ({ success := false, synced := none, archived := some sessions.length,
         queued := none, error := validation.error },
       { st with archive := archiveLocally sessions env.now st.archive })
    else if !env.online then
      ({ success := false, synced := none, archived := none,
         queued := some sessions.length, error := some "offline" },
       { st with failedSyncs := queueFailedSync sessions st.failedSyncs })
    else
      match env.send with
      | Except.ok _ =>
          ({ success := true, synced := some sessions.length, archived := none,
             queued := none, error := none },
           { archive := pruneArchive config.archiveRetentionDays env.now
               (archiveLocally sessions env.now st.archive),
             failedSyncs := [] })
      | Except.error e =>
          ({ success := false, synced := none, archived := none,
             queued := some sessions.length, error := some e },
           { st with failedSyncs := queueFailedSync sessions st.failedSyncs })

/-! ## Session tracker (background script) -/

/-- `endCurrentSession`: no-op when no session is open; otherwise stamps
end-timestamp = now and duration = now minus start, pushes a copy onto the
pending buffer when the duration is at least one second, and clears the
current-session slot. -/
def endCurrentSession (now : Int) (st : TrackerState) : TrackerState :=
  match st.currentSession with
  | none => st
  | some cs =>
      let closed : Session :=
        { cs with endTimestamp := some now, durationSeconds := now - cs.startTimestamp }
      { st with
        currentSession := none
        pendingSessions :=
          if closed.durationSeconds ≥ 1 then st.pendingSessions ++ [closed]
          else st.pendingSessions }

/-- `startSession`: ends any existing session first, then opens a new one
unless idle detection vetoes it or the URL is not trackable.  The domain
extractor (`Utils.extractDomain`, a browser URL-parser wrapper) is passed
in as a function. -/
def startSession (extractDomain : String → String) (tab : Tab) (now : Int)
    (st : TrackerState) : TrackerState :=
  let st1 := endCurrentSession now st
  if st1.config.idleDetectionEnabled ∧ st1.isIdle then st1
  else if !isTrackableUrl tab.url then st1
  else
    { st1 with
      currentSession := some
        { url := tab.url
          domain := extractDomain tab.url
          title := if tab.title = "" then "Untitled" else tab.title
          startTimestamp := now
          endTimestamp := none
          durationSeconds := 0
          tabId := tab.id
          incognito := tab.incognito } }

/-- `updateCurrentSession`: delegates to `startSession` when no session
is open; closes and reopens on a URL change; updates the title in place
when only the title changed. -/
def updateCurrentSession (extractDomain : String → String) (tab : Tab) (now : Int)
    (st : TrackerState) : TrackerState :=
  match st.currentSession with
  | none => startSession extractDomain tab now st
  | some cs =>
      if cs.url ≠ tab.url then
        startSession extractDomain tab now (endCurrentSession now st)
      else if tab.title ≠ "" ∧ cs.title ≠ tab.title then
        { st with currentSession := some { cs with title := tab.title } }
      else st

/-- The external inputs consumed by one `performSync` invocation: the
clock value at the closing step, the active-tab query result, the sync
environment, and the clock value at the restarting step. -/
structure SyncStep where
  closeTime : Int
  activeTab : Option Tab
  env : SyncEnv
  restartTime : Int

/-- `performSync` in the background script: remembers whether a session
was active and which tab is active, closes the current session, runs
`SyncManager.sync` on the pending buffer, clears the pending buffer only
on success, and finally restarts a session on the remembered active tab
when one had been active and its URL is trackable. -/
def performSync (extractDomain : String → String) (step : SyncStep)
    (st : TrackerState) (ss : SyncState) :
    SyncResult × TrackerState × SyncState :=
  let hadActiveSession := st.currentSession.isSome
  let activeTabInfo := if hadActiveSession then step.activeTab else none
  let st1 := if hadActiveSession then endCurrentSession step.closeTime st else st
  let (result, ss1) := sync st1.pendingSessions st1.config step.env ss
  let st2 := if result.success then { st1 with pendingSessions := [] } else st1
  let st3 :=
    match hadActiveSession, activeTabInfo with
    | true, some tab =>
        if isTrackableUrl tab.url then
          startSession extractDomain tab step.restartTime st2
        else st2
    | _, _ => st2
  (result, st3, ss1)

/-- State reached after a sequence of `performSync` invocations. -/
def runSyncs (extractDomain : String → String) (steps : List SyncStep)
    (st : TrackerState) (ss : SyncState) : TrackerState × SyncState :=
  match steps with
  | [] => (st, ss)
  | step :: rest =>
      let (_, st1, ss1) := performSync extractDomain step st ss
      runSyncs extractDomain rest st1 ss1

/-! ## Stats aggregation (getStats in the background script) -/

/-- The totals part of the object returned by `getStats`.  Per-domain
rows are elided; the claims under study concern the totals. -/
structure StatsTotals where
  todayTotal : Int
  allTimeTotal : Int
  pendingCount : Nat
deriving Repr, DecidableEq

/-- `getStats`: combines pending and archived sessions, adds a
closed-as-of-now copy of the current session when one is open, and folds
durations over the whole list and over the part whose start-timestamp is
at or after the start of today. -/
def getStats (pending : List Session) (archive : List ArchivedSession)
    (current : Option Session) (now : Int) (todayStart : Int) : StatsTotals :=
  let base := pending ++ archive.map (fun a => a.session)
  let allSessions :=
    match current with
    | some cs =>
        base ++ [{ cs with endTimestamp := some now,
                           durationSeconds := now - cs.startTimestamp }]
    | none => base
  let todaySessions := allSessions.filter (fun s => decide (s.startTimestamp ≥ todayStart))
  { todayTotal := todaySessions.foldl (fun sum s => sum + s.durationSeconds) 0
    allTimeTotal := allSessions.foldl (fun sum s => sum + s.durationSeconds) 0
    pendingCount := pending.length }

/-! ## Message handlers (background script) -/

/-- Result object of the `clearData` and `saveConfig` handlers. -/
structure AckResult where
  success : Bool
deriving Repr, DecidableEq

/-- The `clearData` message case: empties the in-memory pending buffer,
persists the empty buffer, and removes the archive and failed-syncs keys
from storage. -/
def clearData (st : TrackerState) (storage : StorageState) :
    AckResult × TrackerState × StorageState :=
  let st1 := { st with pendingSessions := [] }
  let storage1 :=
    { storage with
      pendingSessions := some []
      archive := none
      failedSyncs := none }
  ({ success := true }, st1, storage1)

/-- The object spread of the incoming message config over the stored
config in the saveConfig handler: each field present in the update
overrides the stored value, each absent field keeps it. -/
def mergeConfig (old : Config) (update : ConfigUpdate) : Config :=
  { apiEndpoint := update.apiEndpoint.getD old.apiEndpoint
    apiKey := update.apiKey.getD old.apiKey
    syncIntervalMinutes := update.syncIntervalMinutes.getD old.syncIntervalMinutes
    userId := update.userId.getD old.userId
    deviceProfile := update.deviceProfile.getD old.deviceProfile
    idleDetectionEnabled := update.idleDetectionEnabled.getD old.idleDetectionEnabled
    idleThresholdMinutes := update.idleThresholdMinutes.getD old.idleThresholdMinutes
    archiveRetentionDays := update.archiveRetentionDays.getD old.archiveRetentionDays }

/-- The total configuration denoted by an update that carries every
field. -/
def configOfUpdate (update : ConfigUpdate) (dfault : Config) : Config :=
  mergeConfig dfault update

/-- The `saveConfig` message case: merges the incoming object over the
current configuration and stores the result in memory and in storage. -/
def saveConfig (update : ConfigUpdate) (st : TrackerState)
    (storage : StorageState) : AckResult × TrackerState × StorageState :=
  let merged := mergeConfig st.config update
  ({ success := true },
   { st with config := merged },
   { storage with config := some merged })

/-- An update provides every field. -/
def ConfigUpdate.Total (update : ConfigUpdate) : Prop :=
  update.apiEndpoint.isSome ∧ update.apiKey.isSome ∧
  update.syncIntervalMinutes.isSome ∧ update.userId.isSome ∧
  update.deviceProfile.isSome ∧ update.idleDetectionEnabled.isSome ∧
  update.idleThresholdMinutes.isSome ∧ update.archiveRetentionDays.isSome

/-! ## Tracker operation sequences (for the single-open-session claim) -/

/-- One tracker primitive together with its inputs. -/
inductive TrackerOp where
  | start (tab : Tab) (now : Int)
  | close (now : Int)
  | update (tab : Tab) (now : Int)

/-- Dispatch one primitive. -/
def applyOp (extractDomain : String → String) (op : TrackerOp)
    (st : TrackerState) : TrackerState :=
  match op with
  | TrackerOp.start tab now => startSession extractDomain tab now st
  | TrackerOp.close now => endCurrentSession now st
  | TrackerOp.update tab now => updateCurrentSession extractDomain tab now st

/-- Run a sequence of tracker primitives. -/
def applyOps (extractDomain : String → String) (ops : List TrackerOp)
    (st : TrackerState) : TrackerState :=
  ops.foldl (fun s op => applyOp extractDomain op s) st

/-- Number of open sessions held in the state: one when the
current-session slot is filled, zero otherwise. -/
def openCount (st : TrackerState) : Nat :=
  match st.currentSession with
  | some _ => 1
  | none => 0

/-! ## Session identity and archive multiplicity -/

/-- The identity of a session for duplication questions:
start-timestamp, url and tab id. -/
def sessKey (s : Session) : Int × String × Nat :=
  (s.startTimestamp, s.url, s.tabId)

/-- Number of sessions with the given identity in a session list. -/
def countKeyS (k : Int × String × Nat) (l : List Session) : Nat :=
  (l.filter (fun s => decide (sessKey s = k))).length

/-- Number of archive entries with the given session identity. -/
def countKeyA (k : Int × String × Nat) (l : List ArchivedSession) : Nat :=
  (l.filter (fun a => decide (sessKey a.session = k))).length

/-- One when the open session has the given identity, zero otherwise. -/
def currentKeyCount (k : Int × String × Nat) (st : TrackerState) : Nat :=
  match st.currentSession with
  | some cs => if sessKey cs = k then 1 else 0
  | none => 0

/-- Total number of copies of an identity that could still reach the
archive or already did: archive entries plus pending entries plus the
open session. -/
def keyMeasure (k : Int × String × Nat) (st : TrackerState) (ss : SyncState) : Nat :=
  countKeyA k ss.archive + countKeyS k st.pendingSessions + currentKeyCount k st

/-- A `performSync` step that avoids the validation-failure archiving
branch (the API is unconfigured, so `sync` archives and returns success
and the buffer is cleared, or validation succeeds) and whose restart
clock value differs from the start-timestamp of the identity under
study. -/
def StepSafe (k : Int × String × Nat) (config : Config) (step : SyncStep) : Prop :=
  (config.apiEndpoint = "" ∨ config.apiKey = "" ∨
    (validateUser config.userId config step.env.rpc).valid = true) ∧
  step.restartTime ≠ k.1

instance (k : Int × String × Nat) (config : Config) (step : SyncStep) :
    Decidable (StepSafe k config step) := by
  unfold StepSafe
  infer_instance

/-- Duration total of a session list, the quantity the stats fold
computes. -/
def durationSum (l : List Session) : Int :=
  (l.map (fun s => s.durationSeconds)).sum

/-! ## Concrete fixtures -/

/-- A fully populated device profile. -/
def exampleProfile : DeviceProfile :=
  { dtype := "laptop", name := "dev", browser := "Firefox", os := "Linux" }

/-- A configuration with endpoint, key and user id all set. -/
def configuredConfig : Config :=
  { apiEndpoint := "https://api.example", apiKey := "key", syncIntervalMinutes := 180,
    userId := "user", deviceProfile := exampleProfile, idleDetectionEnabled := false,
    idleThresholdMinutes := 5, archiveRetentionDays := 30 }

/-- A closed session. -/
def sessionA : Session :=
  { url := "https://a.example/", domain := "a.example", title := "A",
    startTimestamp := 100, endTimestamp := some 165, durationSeconds := 65,
    tabId := 1, incognito := false }

/-- A different closed session sharing the start-timestamp of
`sessionA`. -/
def sessionB : Session :=
  { url := "https://b.example/", domain := "b.example", title := "B",
    startTimestamp := 100, endTimestamp := some 180, durationSeconds := 80,
    tabId := 2, incognito := false }

/-- A still-open session. -/
def liveSession : Session :=
  { url := "https://a.example/", domain := "a.example", title := "A",
    startTimestamp := 100, endTimestamp := none, durationSeconds := 0,
    tabId := 1, incognito := false }

/-- Tracker state holding one pending session and no open session. -/
def trackerWithPendingA : TrackerState :=
  { currentSession := none, isIdle := false, pendingSessions := [sessionA],
    config := configuredConfig, deviceId := "device-1" }

/-- Tracker state with an open session. -/
def openSessionTracker : TrackerState :=
  { currentSession := some liveSession, isIdle := false, pendingSessions := [],
    config := configuredConfig, deviceId := "device-1" }

/-- Empty durable sync state. -/
def emptySyncState : SyncState := { archive := [], failedSyncs := [] }

/-- Environment in which the validation RPC answers that the user is not
allowlisted. -/
def invalidUserEnv : SyncEnv :=
  { rpc := Except.ok false, online := true, send := Except.ok (), now := 500 }

/-- Environment in which the user validates but the runtime is
offline. -/
def offlineEnv : SyncEnv :=
  { rpc := Except.ok true, online := false, send := Except.ok (), now := 500 }

/-- Environment in which everything works. -/
def okEnv : SyncEnv :=
  { rpc := Except.ok true, online := true, send := Except.ok (), now := 500 }

/-- A `performSync` step in the invalid-user environment. -/
def invalidUserStep : SyncStep :=
  { closeTime := 500, activeTab := none, env := invalidUserEnv, restartTime := 500 }

/-- A `performSync` step in the all-good environment. -/
def okSyncStep : SyncStep :=
  { closeTime := 500, activeTab := none, env := okEnv, restartTime := 500 }

/-- Example storage contents. -/
def exampleStorage : StorageState :=
  { deviceId := some "device-1", config := some configuredConfig,
    pendingSessions := some [sessionA], archive := some [],
    failedSyncs := some [] }

/-- A complete configuration message, different from `configuredConfig`
in every field. -/
def fullUpdate : ConfigUpdate :=
  { apiEndpoint := some "https://other.example", apiKey := some "key2",
    syncIntervalMinutes := some 60, userId := some "user2",
    deviceProfile := some { dtype := "desktop", name := "dev2",
                            browser := "Firefox", os := "Windows" },
    idleDetectionEnabled := some true, idleThresholdMinutes := some 10,
    archiveRetentionDays := some 7 }

/-- An archive entry whose two timestamps equal the pruning cutoff
exactly. -/
def boundaryEntry : ArchivedSession :=
  { session := { sessionA with startTimestamp := 913600 }, archivedAt := 913600 }

/-! ## Helper lemmas -/

theorem countKeyS_append (k : Int × String × Nat) (l1 l2 : List Session) :
    countKeyS k (l1 ++ l2) = countKeyS k l1 + countKeyS k l2 := by
  simp [countKeyS, List.filter_append]

theorem countKeyA_append (k : Int × String × Nat) (l1 l2 : List ArchivedSession) :
    countKeyA k (l1 ++ l2) = countKeyA k l1 + countKeyA k l2 := by
  simp [countKeyA, List.filter_append]

theorem countKeyA_archiveLocally (k : Int × String × Nat)
    (sessions : List Session) (now : Int) (archive : List ArchivedSession) :
    countKeyA k (archiveLocally sessions now archive) =
      countKeyA k archive + countKeyS k sessions := by
  unfold archiveLocally
  rw [countKeyA_append]
  congr 1
  induction sessions with
  | nil => rfl
  | cons s rest ih =>
      simp only [List.map_cons, countKeyA, countKeyS, List.filter_cons] at *
      by_cases h : sessKey s = k <;> simp [h, ih]

theorem countKeyA_pruneArchive_le (k : Int × String × Nat)
    (retentionDays now : Int) (archive : List ArchivedSession) :
    countKeyA k (pruneArchive retentionDays now archive) ≤ countKeyA k archive := by
  unfold countKeyA pruneArchive
  exact List.Sublist.length_le (List.Sublist.filter _ (List.filter_sublist archive))

theorem countKeyS_nil (k : Int × String × Nat) : countKeyS k [] = 0 := rfl

theorem countKeyS_singleton (k : Int × String × Nat) (s : Session) :
    countKeyS k [s] = if sessKey s = k then 1 else 0 := by
  by_cases h : sessKey s = k <;> simp [countKeyS, h]

theorem sessKey_closed (cs : Session) (now : Int) :
    sessKey { cs with endTimestamp := some now,
                      durationSeconds := now - cs.startTimestamp } = sessKey cs := rfl

theorem keyMeasure_of_none (k : Int × String × Nat) (st : TrackerState)
    (ss : SyncState) (h : st.currentSession = none) :
    keyMeasure k st ss = countKeyA k ss.archive + countKeyS k st.pendingSessions := by
  unfold keyMeasure currentKeyCount
  rw [h]
  rfl

theorem endCurrentSession_config (now : Int) (st : TrackerState) :
    (endCurrentSession now st).config = st.config := by
  unfold endCurrentSession
  cases h : st.currentSession <;> simp [h]

theorem endCurrentSession_none (now : Int) (st : TrackerState) :
    (endCurrentSession now st).currentSession = none ∨
      (endCurrentSession now st).currentSession = st.currentSession := by
  unfold endCurrentSession
  cases h : st.currentSession <;> simp [h]

theorem endCurrentSession_keyMeasure_le (k : Int × String × Nat) (now : Int)
    (st : TrackerState) (ss : SyncState) :
    keyMeasure k (endCurrentSession now st) ss ≤ keyMeasure k st ss := by
  unfold endCurrentSession
  cases h : st.currentSession with
  | none => exact Nat.le_refl _
  | some cs =>
      unfold keyMeasure currentKeyCount
      rw [h]
      simp only
      split
      · rw [countKeyS_append, countKeyS_singleton, sessKey_closed]
        split <;> omega
      · split <;> omega

theorem startSession_config (ed : String → String) (tab : Tab) (now : Int)
    (st : TrackerState) :
    (startSession ed tab now st).config = st.config := by
  unfold startSession
  dsimp only
  split
  · exact endCurrentSession_config now st
  · split
    · exact endCurrentSession_config now st
    · exact endCurrentSession_config now st

theorem startSession_keyMeasure_of_fresh (k : Int × String × Nat)
    (ed : String → String) (tab : Tab) (now : Int) (st : TrackerState)
    (ss : SyncState) (hcur : st.currentSession = none) (hfresh : now ≠ k.1) :
    keyMeasure k (startSession ed tab now st) ss = keyMeasure k st ss := by
  have hend : endCurrentSession now st = st := by
    unfold endCurrentSession
    rw [hcur]
  unfold startSession
  rw [hend]
  dsimp only
  split
  · rfl
  · split
    · rfl
    · unfold keyMeasure currentKeyCount
      rw [hcur]
      dsimp only
      rw [if_neg (fun hk => hfresh (congrArg Prod.fst hk))]

theorem sync_keyMeasure (k : Int × String × Nat) (sessions : List Session)
    (config : Config) (env : SyncEnv) (ss : SyncState)
    (hsafe : config.apiEndpoint = "" ∨ config.apiKey = "" ∨
      (validateUser config.userId config env.rpc).valid = true) :
    countKeyA k (sync sessions config env ss).2.archive +
        (if (sync sessions config env ss).1.success then 0 else countKeyS k sessions) ≤
      countKeyA k ss.archive + countKeyS k sessions := by
  by_cases h0 : sessions.length = 0
  · simp [sync, h0]
  · by_cases h1 : config.apiEndpoint = "" ∨ config.apiKey = ""
    · simp [sync, h0, h1, countKeyA_archiveLocally]
    · have hv : (validateUser config.userId config env.rpc).valid = true := by
        rcases hsafe with h | h | h
        · exact absurd (Or.inl h) h1
        · exact absurd (Or.inr h) h1
        · exact h
      by_cases h2 : env.online = true
      · cases hsend : env.send with
        | ok u =>
            have heq : sync sessions config env ss =
                ({ success := true, synced := some sessions.length, archived := none,
                   queued := none, error := none },
                 { archive := pruneArchive config.archiveRetentionDays env.now
                     (archiveLocally sessions env.now ss.archive),
                   failedSyncs := [] }) := by
              simp [sync, h0, h1, hv, h2, hsend]
            rw [heq]
            dsimp only
            simp only [if_pos rfl]
            calc countKeyA k (pruneArchive config.archiveRetentionDays env.now
                    (archiveLocally sessions env.now ss.archive)) + 0
                ≤ countKeyA k (archiveLocally sessions env.now ss.archive) := by
                  simpa using countKeyA_pruneArchive_le k _ _ _
              _ = countKeyA k ss.archive + countKeyS k sessions :=
                  countKeyA_archiveLocally k sessions env.now ss.archive
        | error e =>
            simp [sync, h0, h1, hv, h2, hsend]
      · simp [sync, h0, h1, hv, h2]

theorem endCurrentSession_cur_of_some (now : Int) (st : TrackerState) (cs : Session)
    (h : st.currentSession = some cs) :
    (endCurrentSession now st).currentSession = none := by
  unfold endCurrentSession
  rw [h]

theorem performSync_result (ed : String → String) (step : SyncStep)
    (st : TrackerState) (ss : SyncState) :
    (performSync ed step st ss).1 =
      (sync (if st.currentSession.isSome then endCurrentSession step.closeTime st
             else st).pendingSessions
            (if st.currentSession.isSome then endCurrentSession step.closeTime st
             else st).config
            step.env ss).1 := rfl

theorem performSync_storage (ed : String → String) (step : SyncStep)
    (st : TrackerState) (ss : SyncState) :
    (performSync ed step st ss).2.2 =
      (sync (if st.currentSession.isSome then endCurrentSession step.closeTime st
             else st).pendingSessions
            (if st.currentSession.isSome then endCurrentSession step.closeTime st
             else st).config
            step.env ss).2 := rfl

theorem performSync_tracker (ed : String → String) (step : SyncStep)
    (st : TrackerState) (ss : SyncState) :
    (performSync ed step st ss).2.1 =
      (let st1 := if st.currentSession.isSome then endCurrentSession step.closeTime st
                  else st
       let st2 := if (sync st1.pendingSessions st1.config step.env ss).1.success then
                    { st1 with pendingSessions := [] }
                  else st1
       match st.currentSession.isSome,
             (if st.currentSession.isSome then step.activeTab else none) with
       | true, some tab =>
           if isTrackableUrl tab.url then startSession ed tab step.restartTime st2
           else st2
       | _, _ => st2) := rfl

theorem runSyncs_cons (ed : String → String) (step : SyncStep) (rest : List SyncStep)
    (st : TrackerState) (ss : SyncState) :
    runSyncs ed (step :: rest) st ss =
      runSyncs ed rest (performSync ed step st ss).2.1 (performSync ed step st ss).2.2 := rfl

theorem performSync_config (ed : String → String) (step : SyncStep)
    (st : TrackerState) (ss : SyncState) :
    (performSync ed step st ss).2.1.config = st.config := by
  rw [performSync_tracker]
  dsimp only
  split
  · split
    · rw [startSession_config]
      split <;> simp [endCurrentSession_config]
    · split <;> simp [endCurrentSession_config]
  · split <;> split <;> simp [endCurrentSession_config]

theorem performSync_keyMeasure_le (k : Int × String × Nat) (ed : String → String)
    (step : SyncStep) (st : TrackerState) (ss : SyncState)
    (hsafe : StepSafe k st.config step) :
    keyMeasure k (performSync ed step st ss).2.1 (performSync ed step st ss).2.2 ≤
      keyMeasure k st ss := by
  obtain ⟨hval, hfresh⟩ := hsafe
  rw [performSync_tracker, performSync_storage]
  dsimp only
  set st1 := if st.currentSession.isSome then endCurrentSession step.closeTime st
             else st with hst1
  have h1 : keyMeasure k st1 ss ≤ keyMeasure k st ss := by
    rw [hst1]
    split
    · exact endCurrentSession_keyMeasure_le k step.closeTime st ss
    · exact Nat.le_refl _
  have hc : st1.config = st.config := by
    rw [hst1]
    split
    · exact endCurrentSession_config step.closeTime st
    · rfl
  have hn : st1.currentSession = none := by
    rw [hst1]
    cases hcur : st.currentSession with
    | none => simp [hcur]
    | some cs => simp [hcur, endCurrentSession_cur_of_some step.closeTime st cs hcur]
  have hsyncle := sync_keyMeasure k st1.pendingSessions st1.config step.env ss
    (by rw [hc]; exact hval)
  set st2 := if (sync st1.pendingSessions st1.config step.env ss).1.success then
               { st1 with pendingSessions := [] }
             else st1 with hst2
  have hn2 : st2.currentSession = none := by
    rw [hst2]
    split
    · exact hn
    · exact hn
  have hm2 : keyMeasure k st2 (sync st1.pendingSessions st1.config step.env ss).2 ≤
      keyMeasure k st ss := by
    rw [keyMeasure_of_none k st2 _ hn2]
    have hps : countKeyS k st2.pendingSessions =
        if (sync st1.pendingSessions st1.config step.env ss).1.success then 0
        else countKeyS k st1.pendingSessions := by
      rw [hst2]
      split
      · rfl
      · rfl
    rw [hps]
    calc countKeyA k (sync st1.pendingSessions st1.config step.env ss).2.archive +
          (if (sync st1.pendingSessions st1.config step.env ss).1.success then 0
           else countKeyS k st1.pendingSessions)
        ≤ countKeyA k ss.archive + countKeyS k st1.pendingSessions := hsyncle
      _ = keyMeasure k st1 ss := (keyMeasure_of_none k st1 ss hn).symm
      _ ≤ keyMeasure k st ss := h1
  cases hcur : st.currentSession with
  | none => simpa [hcur] using hm2
  | some cs =>
      cases htab : step.activeTab with
      | none => simpa [hcur, htab] using hm2
      | some tab =>
          simp only [hcur, htab, Option.isSome_some, if_true, reduceIte]
          split
          · rw [startSession_keyMeasure_of_fresh k ed tab step.restartTime st2 _ hn2 hfresh]
            exact hm2
          · exact hm2

theorem runSyncs_keyMeasure_le (k : Int × String × Nat) (ed : String → String)
    (steps : List SyncStep) (st : TrackerState) (ss : SyncState)
    (hsafe : ∀ step ∈ steps, StepSafe k st.config step) :
    keyMeasure k (runSyncs ed steps st ss).1 (runSyncs ed steps st ss).2 ≤
      keyMeasure k st ss := by
  induction steps generalizing st ss with
  | nil => exact Nat.le_refl _
  | cons step rest ih =>
      rw [runSyncs_cons]
      have hstep := performSync_keyMeasure_le k ed step st ss
        (hsafe step (List.mem_cons_self step rest))
      have hrest := ih (performSync ed step st ss).2.1 (performSync ed step st ss).2.2
        (fun s hs => by
          rw [performSync_config]
          exact hsafe s (List.mem_cons_of_mem step hs))
      exact Nat.le_trans hrest hstep

/-! ## Further helper lemmas -/

theorem durationSum_append (l1 l2 : List Session) :
    durationSum (l1 ++ l2) = durationSum l1 + durationSum l2 := by
  simp [durationSum]

theorem foldl_add_durations (l : List Session) (a : Int) :
    l.foldl (fun sum s => sum + s.durationSeconds) a = a + durationSum l := by
  induction l generalizing a with
  | nil => simp [durationSum]
  | cons s rest ih =>
      rw [List.foldl_cons, ih]
      simp [durationSum]
      omega

theorem some_getD_of_isSome {α : Type} (o : Option α) (d : α) (h : o.isSome) :
    some (o.getD d) = o := by
  cases o with
  | none => simp at h
  | some v => rfl

/-! ## Claims -/

/-- C6: over every sequence of startSession, endCurrentSession and
updateCurrentSession calls, at most one session is open at any time (the
current-session slot is a single nullable cell), and ending when no
session is open leaves the whole tracker state unchanged. -/
theorem claim_C6_single_open_session (ed : String → String) (ops : List TrackerOp)
    (st : TrackerState) (now : Int) :
    openCount (applyOps ed ops st) ≤ 1 ∧
      (st.currentSession = none → endCurrentSession now st = st) := by
  constructor
  · unfold openCount
    cases (applyOps ed ops st).currentSession <;> simp
  · intro h
    unfold endCurrentSession
    rw [h]

/-- Witness for C6 at a concrete state with no open session. -/
theorem claim_C6_single_open_session_witness :
    openCount (applyOps (fun u => u) [TrackerOp.close 5] trackerWithPendingA) ≤ 1 ∧
      endCurrentSession 5 trackerWithPendingA = trackerWithPendingA :=
  ⟨(claim_C6_single_open_session (fun u => u) [TrackerOp.close 5] trackerWithPendingA 5).1,
   (claim_C6_single_open_session (fun u => u) [TrackerOp.close 5] trackerWithPendingA 5).2 rfl⟩

/-- C7: closing an open session stamps end-timestamp = now and duration =
end minus start, appends the closed copy to the pending buffer exactly
when the duration is at least one second, and clears the current-session
slot unconditionally. -/
theorem claim_C7_end_session_behavior (now : Int) (st : TrackerState) (cs : Session)
    (h : st.currentSession = some cs) :
    (endCurrentSession now st).currentSession = none ∧
    (1 ≤ now - cs.startTimestamp →
      (endCurrentSession now st).pendingSessions =
        st.pendingSessions ++
          [{ cs with endTimestamp := some now,
                     durationSeconds := now - cs.startTimestamp }]) ∧
    (now - cs.startTimestamp < 1 →
      (endCurrentSession now st).pendingSessions = st.pendingSessions) := by
  unfold endCurrentSession
  rw [h]
  dsimp only
  refine ⟨rfl, ?_, ?_⟩
  · intro hd
    rw [if_pos hd]
  · intro hd
    rw [if_neg (by omega)]

/-- Witness for C7: closing a 65-second session appends it; the original
state had an open session. -/
theorem claim_C7_end_session_behavior_witness :
    openSessionTracker.currentSession = some liveSession ∧
    (endCurrentSession 165 openSessionTracker).currentSession = none ∧
    (endCurrentSession 165 openSessionTracker).pendingSessions =
      [{ liveSession with endTimestamp := some 165, durationSeconds := 65 }] :=
  ⟨rfl,
   (claim_C7_end_session_behavior 165 openSessionTracker liveSession rfl).1,
   (claim_C7_end_session_behavior 165 openSessionTracker liveSession rfl).2.1 (by decide)⟩

/-- C10: clearData empties the in-memory and persisted pending buffer,
removes the archive and failed-syncs storage keys, reports success, and
leaves the device id, the configuration and the open session alone. -/
theorem claim_C10_clearData_frame (st : TrackerState) (storage : StorageState) :
    (clearData st storage).1.success = true ∧
    (clearData st storage).2.1.pendingSessions = [] ∧
    (clearData st storage).2.2.pendingSessions = some [] ∧
    (clearData st storage).2.2.archive = none ∧
    (clearData st storage).2.2.failedSyncs = none ∧
    (clearData st storage).2.1.currentSession = st.currentSession ∧
    (clearData st storage).2.1.config = st.config ∧
    (clearData st storage).2.1.deviceId = st.deviceId ∧
    (clearData st storage).2.1.isIdle = st.isIdle ∧
    (clearData st storage).2.2.deviceId = storage.deviceId ∧
    (clearData st storage).2.2.config = storage.config := by
  unfold clearData
  exact ⟨rfl, rfl, rfl, rfl, rfl, rfl, rfl, rfl, rfl, rfl, rfl⟩

/-- C8: for a configuration message carrying every field (a complete
Config, which is what the data model and the options page supply),
saveConfig stores, in memory and in storage, exactly the incoming
configuration: every field of the result is the field of the message, so
no field of the previous configuration survives. -/
theorem claim_C8_saveConfig_wholesale (update : ConfigUpdate) (st : TrackerState)
    (storage : StorageState) (h : update.Total) :
    (saveConfig update st storage).1.success = true ∧
    (saveConfig update st storage).2.2.config =
      some (saveConfig update st storage).2.1.config ∧
    some (saveConfig update st storage).2.1.config.apiEndpoint = update.apiEndpoint ∧
    some (saveConfig update st storage).2.1.config.apiKey = update.apiKey ∧
    some (saveConfig update st storage).2.1.config.syncIntervalMinutes =
      update.syncIntervalMinutes ∧
    some (saveConfig update st storage).2.1.config.userId = update.userId ∧
    some (saveConfig update st storage).2.1.config.deviceProfile = update.deviceProfile ∧
    some (saveConfig update st storage).2.1.config.idleDetectionEnabled =
      update.idleDetectionEnabled ∧
    some (saveConfig update st storage).2.1.config.idleThresholdMinutes =
      update.idleThresholdMinutes ∧
    some (saveConfig update st storage).2.1.config.archiveRetentionDays =
      update.archiveRetentionDays := by
  obtain ⟨h1, h2, h3, h4, h5, h6, h7, h8⟩ := h
  unfold saveConfig mergeConfig
  dsimp only
  exact ⟨rfl, rfl,
    some_getD_of_isSome _ _ h1, some_getD_of_isSome _ _ h2,
    some_getD_of_isSome _ _ h3, some_getD_of_isSome _ _ h4,
    some_getD_of_isSome _ _ h5, some_getD_of_isSome _ _ h6,
    some_getD_of_isSome _ _ h7, some_getD_of_isSome _ _ h8⟩

/-- Witness for C8 at a concrete complete update. -/
theorem claim_C8_saveConfig_wholesale_witness :
    fullUpdate.Total ∧
    some (saveConfig fullUpdate trackerWithPendingA exampleStorage).2.1.config.apiKey =
      fullUpdate.apiKey :=
  ⟨by constructor <;> simp [fullUpdate],
   (claim_C8_saveConfig_wholesale fullUpdate trackerWithPendingA exampleStorage
     (by constructor <;> simp [fullUpdate])).2.2.2.1⟩

/-- C9: getStats computes todayTotal as the duration sum over pending,
archived and the closed-as-of-now copy of the live session restricted to
start-timestamps at or after the start of today, and allTimeTotal as the
duration sum over all of them; the closed copy contributes now minus its
start-timestamp. -/
theorem claim_C9_getStats_totals (pending : List Session)
    (archive : List ArchivedSession) (current : Option Session)
    (now todayStart : Int) :
    (getStats pending archive current now todayStart).todayTotal =
      durationSum (pending.filter (fun s => decide (s.startTimestamp ≥ todayStart))) +
      durationSum ((archive.map (fun a => a.session)).filter
        (fun s => decide (s.startTimestamp ≥ todayStart))) +
      (match current with
       | some cs => if cs.startTimestamp ≥ todayStart then now - cs.startTimestamp else 0
       | none => 0) ∧
    (getStats pending archive current now todayStart).allTimeTotal =
      durationSum pending + durationSum (archive.map (fun a => a.session)) +
      (match current with
       | some cs => now - cs.startTimestamp
       | none => 0) := by
  unfold getStats
  cases current with
  | none =>
      dsimp only
      constructor
      · rw [foldl_add_durations, List.filter_append, durationSum_append]
        omega
      · rw [foldl_add_durations, durationSum_append]
        omega
  | some cs =>
      dsimp only
      constructor
      · rw [foldl_add_durations, List.filter_append, List.filter_append,
          durationSum_append, durationSum_append]
        by_cases hcs : cs.startTimestamp ≥ todayStart
        · rw [if_pos hcs]
          have : durationSum (List.filter
              (fun s => decide (s.startTimestamp ≥ todayStart))
              [{ cs with endTimestamp := some now,
                         durationSeconds := now - cs.startTimestamp }]) =
              now - cs.startTimestamp := by
            simp [List.filter, hcs, durationSum]
          omega
        · rw [if_neg hcs]
          have : durationSum (List.filter
              (fun s => decide (s.startTimestamp ≥ todayStart))
              [{ cs with endTimestamp := some now,
                         durationSeconds := now - cs.startTimestamp }]) = 0 := by
            simp [List.filter, hcs, durationSum]
          omega
      · rw [foldl_add_durations, durationSum_append, durationSum_append]
        have : durationSum
            [{ cs with endTimestamp := some now,
                       durationSeconds := now - cs.startTimestamp }] =
            now - cs.startTimestamp := by
          simp [durationSum]
        omega

/-- One queueFailedSync call keeps the start-timestamps of the queue
duplicate-free, provided the incoming batch itself carries no repeated
start-timestamps. -/
theorem queueFailedSync_ts_nodup (sessions q : List Session)
    (hq : (q.map (fun s => s.startTimestamp)).Nodup)
    (hs : (sessions.map (fun s => s.startTimestamp)).Nodup) :
    ((queueFailedSync sessions q).map (fun s => s.startTimestamp)).Nodup := by
  unfold queueFailedSync
  rw [List.map_append]
  refine List.Nodup.append hq ?_ ?_
  · exact hs.sublist (List.Sublist.map _ (List.filter_sublist sessions))
  · intro a ha1 ha2
    obtain ⟨s, hsmem, rfl⟩ := List.mem_map.mp ha2
    have hkeep := (List.mem_filter.mp hsmem).2
    rw [Bool.not_eq_true'] at hkeep
    have hcontains : (List.map (fun s => s.startTimestamp) q).contains s.startTimestamp
        = true := List.elem_eq_true_of_mem ha1
    rw [hkeep] at hcontains
    exact Bool.false_ne_true hcontains

/-- C3 as stated is false: a single batch containing two sessions with
the same start-timestamp is merged into an empty queue without
deduplication, leaving two queue entries with the same start-timestamp.
The sessions sessionA and sessionB share start-timestamp 100. -/
theorem claim_C3_counterexample :
    sessionA.startTimestamp = sessionB.startTimestamp ∧
    ¬ ((queueFailedSync [sessionA, sessionB] []).map
        (fun s => s.startTimestamp)).Nodup := by
  constructor
  · rfl
  · decide

/-- C3 amended: after any sequence of queueFailedSync calls whose
individual input batches carry no repeated start-timestamps, the failed
queue never holds two entries with the same start-timestamp; a session
whose start-timestamp already exists in the queue is skipped on merge.
The in-batch restriction is forced: the dedup set is computed from the
existing queue only, so duplicates inside one batch are all appended. -/
theorem claim_C3_queue_dedup (batches : List (List Session)) (q : List Session)
    (hq : (q.map (fun s => s.startTimestamp)).Nodup)
    (hb : ∀ b ∈ batches, (b.map (fun s => s.startTimestamp)).Nodup) :
    ((batches.foldl (fun acc b => queueFailedSync b acc) q).map
        (fun s => s.startTimestamp)).Nodup := by
  induction batches generalizing q with
  | nil => exact hq
  | cons b rest ih =>
      rw [List.foldl_cons]
      exact ih (queueFailedSync b q)
        (queueFailedSync_ts_nodup b q hq (hb b (List.mem_cons_self b rest)))
        (fun x hx => hb x (List.mem_cons_of_mem b hx))

/-- Witness for C3 amended: queueing the same singleton batch twice
leaves a duplicate-free queue. -/
theorem claim_C3_queue_dedup_witness :
    (([] : List Session).map (fun s => s.startTimestamp)).Nodup ∧
    (∀ b ∈ [[sessionA], [sessionA]],
      (b.map (fun s => s.startTimestamp)).Nodup) ∧
    (([[sessionA], [sessionA]].foldl (fun acc b => queueFailedSync b acc) []).map
        (fun s => s.startTimestamp)).Nodup :=
  ⟨by decide, by decide,
   claim_C3_queue_dedup [[sessionA], [sessionA]] [] (by decide) (by decide)⟩

/-- C5 as stated is false at the cutoff boundary: with now = 1000000 and
one retention day the cutoff is 913600; an entry whose archived-at and
start-timestamp both equal 913600 is removed by the code although
neither timestamp is older than the cutoff, so removal is not equivalent
to both timestamps being strictly older. -/
theorem claim_C5_counterexample :
    pruneArchive 1 1000000 [boundaryEntry] = [] ∧
    ¬ (boundaryEntry.archivedAt < 1000000 - 1 * 86400 ∧
       boundaryEntry.session.startTimestamp < 1000000 - 1 * 86400) := by
  constructor
  · decide
  · decide

/-- C5 amended: pruneArchive removes an entry exactly when both its
archived-at and its start-timestamp are at or before now minus
retentionDays multiplied by 86400 seconds; equivalently an entry is kept
exactly when either timestamp is strictly more recent than the cutoff. -/
theorem claim_C5_pruneArchive_retention (retentionDays now : Int)
    (archive : List ArchivedSession) (e : ArchivedSession) (he : e ∈ archive) :
    e ∈ pruneArchive retentionDays now archive ↔
      now - retentionDays * 86400 < e.archivedAt ∨
        now - retentionDays * 86400 < e.session.startTimestamp := by
  have harith : retentionDays * 24 * 60 * 60 = retentionDays * 86400 := by ring
  unfold pruneArchive
  rw [List.mem_filter]
  constructor
  · intro ⟨_, hcond⟩
    rw [Bool.or_eq_true, decide_eq_true_iff, decide_eq_true_iff] at hcond
    omega
  · intro hcond
    refine ⟨he, ?_⟩
    rw [Bool.or_eq_true, decide_eq_true_iff, decide_eq_true_iff]
    omega

/-- Witness for C5 amended: an entry with an old archived-at but a recent
start-timestamp is retained. -/
theorem claim_C5_pruneArchive_retention_witness :
    ({ session := sessionA, archivedAt := 0 } : ArchivedSession) ∈
        [({ session := sessionA, archivedAt := 0 } : ArchivedSession)] ∧
    (({ session := sessionA, archivedAt := 0 } : ArchivedSession) ∈
        pruneArchive 1 86450 [{ session := sessionA, archivedAt := 0 }] ↔
      86450 - 1 * 86400 < (0 : Int) ∨
        86450 - 1 * 86400 < sessionA.startTimestamp) :=
  ⟨List.mem_singleton.mpr rfl,
   claim_C5_pruneArchive_retention 1 86450 _ _ (List.mem_singleton.mpr rfl)⟩

/-- Every input session leaves its start-timestamp in the merged failed
queue: either it was already there, or the session itself is appended. -/
theorem ts_mem_queueFailedSync (sessions q : List Session) (s : Session)
    (hs : s ∈ sessions) :
    s.startTimestamp ∈ (queueFailedSync sessions q).map (fun r => r.startTimestamp) := by
  unfold queueFailedSync
  rw [List.map_append]
  by_cases hmem : s.startTimestamp ∈ q.map (fun r => r.startTimestamp)
  · exact List.mem_append_left _ hmem
  · refine List.mem_append_right _
      (List.mem_map.mpr ⟨s, List.mem_filter.mpr ⟨hs, ?_⟩, rfl⟩)
    cases hcc : (q.map (fun r => r.startTimestamp)).contains s.startTimestamp with
    | true => exact absurd (List.mem_of_elem_eq_true hcc) hmem
    | false => rfl

/-- C4 as stated is false when the failed queue already holds an entry
with an input start-timestamp: retrying the same single-session batch
while offline reports queued = 1 but the queue stays at length 1 instead
of growing by one. -/
theorem claim_C4_counterexample :
    (sync [sessionA] configuredConfig offlineEnv
        { archive := [], failedSyncs := [sessionA] }).1.success = false ∧
    (sync [sessionA] configuredConfig offlineEnv
        { archive := [], failedSyncs := [sessionA] }).1.error = some "offline" ∧
    (sync [sessionA] configuredConfig offlineEnv
        { archive := [], failedSyncs := [sessionA] }).1.queued = some 1 ∧
    (sync [sessionA] configuredConfig offlineEnv
        { archive := [], failedSyncs := [sessionA] }).2.failedSyncs.length = 1 := by
  decide

/-- C4 amended: an offline sync with a non-empty batch, configured
endpoint and credential and validating user returns failure with error
offline and queued equal to the input length, leaves the archive
untouched, and grows the failed queue by the number of input sessions
whose start-timestamp is not already queued — equal to the input length
exactly when no input start-timestamp is already in the queue.  The
pending buffer is untouched: performSync keeps it intact because the
result is not a success. -/
theorem claim_C4_offline_sync (sessions : List Session) (config : Config)
    (env : SyncEnv) (st : SyncState)
    (hne : sessions ≠ [])
    (hend : config.apiEndpoint ≠ "") (hkey : config.apiKey ≠ "")
    (hv : (validateUser config.userId config env.rpc).valid = true)
    (hoff : env.online = false) :
    (sync sessions config env st).1 =
      { success := false, synced := none, archived := none,
        queued := some sessions.length, error := some "offline" } ∧
    (sync sessions config env st).2.archive = st.archive ∧
    (sync sessions config env st).2.failedSyncs.length =
      st.failedSyncs.length +
        (sessions.filter (fun s =>
          !((st.failedSyncs.map (fun r => r.startTimestamp)).contains
              s.startTimestamp))).length ∧
    ((∀ s ∈ sessions,
        s.startTimestamp ∉ st.failedSyncs.map (fun r => r.startTimestamp)) →
      (sync sessions config env st).2.failedSyncs.length =
        st.failedSyncs.length + sessions.length) ∧
    (∀ (ed : String → String) (step : SyncStep) (tst : TrackerState)
        (tss : SyncState),
      tst.currentSession = none → tst.pendingSessions = sessions →
      tst.config = config → step.env = env →
      (performSync ed step tst tss).2.1.pendingSessions = sessions) := by
  have h0 : ¬ sessions.length = 0 := by
    intro h
    exact hne (List.length_eq_zero.mp h)
  have h1 : ¬ (config.apiEndpoint = "" ∨ config.apiKey = "") := by
    intro h
    cases h with
    | inl h => exact hend h
    | inr h => exact hkey h
  have hsynceq : ∀ stt : SyncState, sync sessions config env stt =
      ({ success := false, synced := none, archived := none,
         queued := some sessions.length, error := some "offline" },
       { stt with failedSyncs := queueFailedSync sessions stt.failedSyncs }) := by
    intro stt
    simp [sync, h0, h1, hv, hoff]
  refine ⟨?_, ?_, ?_, ?_, ?_⟩
  · rw [hsynceq st]
  · rw [hsynceq st]
  · rw [hsynceq st]
    dsimp only
    unfold queueFailedSync
    rw [List.length_append]
  · intro hall
    rw [hsynceq st]
    dsimp only
    unfold queueFailedSync
    rw [List.length_append]
    congr 1
    have hfix : sessions.filter (fun s =>
        !((st.failedSyncs.map (fun s => s.startTimestamp)).contains
            s.startTimestamp)) = sessions := by
      apply List.filter_eq_self.mpr
      intro s hsmem
      cases hcc : (st.failedSyncs.map (fun s => s.startTimestamp)).contains
          s.startTimestamp with
      | true => exact absurd (List.mem_of_elem_eq_true hcc) (hall s hsmem)
      | false => rfl
    rw [hfix]
  · intro ed step tst tss hcur hpend hcfg henv
    have hsucc : (sync tst.pendingSessions tst.config step.env tss).1.success
        = false := by
      rw [hpend, hcfg, henv, hsynceq tss]
    rw [performSync_tracker]
    dsimp only
    simp only [hcur, Option.isSome_none, Bool.false_eq_true, reduceIte]
    rw [hsucc]
    simp only [Bool.false_eq_true, reduceIte]
    exact hpend

/-- Witness for C4 amended on an empty queue: the offline result is
returned as stated. -/
theorem claim_C4_offline_sync_witness :
    ([sessionA] : List Session) ≠ [] ∧
    configuredConfig.apiEndpoint ≠ "" ∧
    configuredConfig.apiKey ≠ "" ∧
    (validateUser configuredConfig.userId configuredConfig offlineEnv.rpc).valid
      = true ∧
    offlineEnv.online = false ∧
    (sync [sessionA] configuredConfig offlineEnv emptySyncState).1 =
      { success := false, synced := none, archived := none,
        queued := some 1, error := some "offline" } :=
  ⟨by decide, by decide, by decide, by decide, by decide,
   (claim_C4_offline_sync [sessionA] configuredConfig offlineEnv emptySyncState
      (by decide) (by decide) (by decide) (by decide) (by decide)).1⟩

/-- C2 as stated is false: when the failed queue already holds a
different session with the same start-timestamp, an offline sync fails
and the input session ends up neither in the archive nor in the failed
queue, so the session itself is discarded (only its start-timestamp is
represented, by the colliding entry). -/
theorem claim_C2_counterexample :
    (sync [sessionA] configuredConfig offlineEnv
        { archive := [], failedSyncs := [sessionB] }).1.success = false ∧
    (¬ ∃ a ∈ (sync [sessionA] configuredConfig offlineEnv
        { archive := [], failedSyncs := [sessionB] }).2.archive,
        a.session = sessionA) ∧
    sessionA ∉ (sync [sessionA] configuredConfig offlineEnv
        { archive := [], failedSyncs := [sessionB] }).2.failedSyncs := by
  decide

/-- C2 amended: after every failing sync call, every input session is
afterwards represented in durable state — it is present in the local
archive, or the failed queue holds an entry with its start-timestamp
(the session itself whenever its start-timestamp was not already
queued). -/
theorem claim_C2_failure_no_data_loss (sessions : List Session) (config : Config)
    (env : SyncEnv) (st : SyncState) (s : Session) (hs : s ∈ sessions)
    (hfail : (sync sessions config env st).1.success = false) :
    (∃ a ∈ (sync sessions config env st).2.archive, a.session = s) ∨
      s.startTimestamp ∈
        (sync sessions config env st).2.failedSyncs.map
          (fun r => r.startTimestamp) := by
  by_cases h0 : sessions.length = 0
  · simp [sync, h0] at hfail
  · by_cases h1 : config.apiEndpoint = "" ∨ config.apiKey = ""
    · simp [sync, h0, h1] at hfail
    · by_cases hv : (validateUser config.userId config env.rpc).valid = true
      · by_cases h2 : env.online = true
        · cases hsend : env.send with
          | ok u => simp [sync, h0, h1, hv, h2, hsend] at hfail
          | error e =>
              right
              have hq : (sync sessions config env st).2.failedSyncs =
                  queueFailedSync sessions st.failedSyncs := by
                simp [sync, h0, h1, hv, h2, hsend]
              rw [hq]
              exact ts_mem_queueFailedSync sessions st.failedSyncs s hs
        · right
          have hq : (sync sessions config env st).2.failedSyncs =
              queueFailedSync sessions st.failedSyncs := by
            simp [sync, h0, h1, hv, h2]
          rw [hq]
          exact ts_mem_queueFailedSync sessions st.failedSyncs s hs
      · left
        rw [Bool.not_eq_true] at hv
        have ha : (sync sessions config env st).2.archive =
            archiveLocally sessions env.now st.archive := by
          simp [sync, h0, h1, hv]
        rw [ha]
        refine ⟨{ session := s, archivedAt := env.now }, ?_, rfl⟩
        unfold archiveLocally
        exact List.mem_append_right _ (List.mem_map.mpr ⟨s, hs, rfl⟩)

/-- Witness for C2 amended at the colliding-timestamp offline input: the
start-timestamp of the skipped session is still represented in the
queue. -/
theorem claim_C2_failure_no_data_loss_witness :
    sessionA ∈ [sessionA] ∧
    (sync [sessionA] configuredConfig offlineEnv
        { archive := [], failedSyncs := [sessionB] }).1.success = false ∧
    ((∃ a ∈ (sync [sessionA] configuredConfig offlineEnv
          { archive := [], failedSyncs := [sessionB] }).2.archive,
        a.session = sessionA) ∨
      sessionA.startTimestamp ∈
        (sync [sessionA] configuredConfig offlineEnv
            { archive := [], failedSyncs := [sessionB] }).2.failedSyncs.map
          (fun r => r.startTimestamp)) :=
  ⟨by decide, by decide,
   claim_C2_failure_no_data_loss [sessionA] configuredConfig offlineEnv
     { archive := [], failedSyncs := [sessionB] } sessionA (by decide) (by decide)⟩

/-- C1 as stated is false: a sync whose user validation fails archives
the pending sessions but returns failure, so performSync does not clear
the pending buffer; running performSync twice in that environment
appends the same session (same start-timestamp, url, tab id) to the
archive twice. -/
theorem claim_C1_counterexample :
    countKeyA (sessKey sessionA)
      ((runSyncs (fun u => u) [invalidUserStep, invalidUserStep]
          trackerWithPendingA emptySyncState).2).archive = 2 := by
  decide

/-- C1 amended: archiveLocally is a pure append without deduplication,
and across any sequence of performSync invocations that never takes the
validation-failure branch (the API is unconfigured or the user
validates) and whose restart clock values differ from the start-timestamp
of the identity, a session identity that occurs at most once across
archive, pending buffer and the open slot is never archived twice; the
validation-failure branch breaks the claim because it archives without
the buffer being cleared. -/
theorem claim_C1_no_duplicate_archiving (ed : String → String)
    (steps : List SyncStep) (st : TrackerState) (ss : SyncState)
    (k : Int × String × Nat)
    (hsafe : ∀ step ∈ steps, StepSafe k st.config step)
    (hinit : keyMeasure k st ss ≤ 1) :
    countKeyA k (runSyncs ed steps st ss).2.archive ≤ 1 := by
  have h := runSyncs_keyMeasure_le k ed steps st ss hsafe
  have h2 : countKeyA k (runSyncs ed steps st ss).2.archive ≤
      keyMeasure k (runSyncs ed steps st ss).1 (runSyncs ed steps st ss).2 := by
    unfold keyMeasure
    omega
  omega

/-- Witness for C1 amended: two well-behaved syncs in a row archive the
pending session exactly once, never twice. -/
theorem claim_C1_no_duplicate_archiving_witness :
    (∀ step ∈ [okSyncStep, okSyncStep],
      StepSafe (sessKey sessionA) trackerWithPendingA.config step) ∧
    keyMeasure (sessKey sessionA) trackerWithPendingA emptySyncState ≤ 1 ∧
    countKeyA (sessKey sessionA)
      ((runSyncs (fun u => u) [okSyncStep, okSyncStep]
          trackerWithPendingA emptySyncState).2).archive ≤ 1 :=
  ⟨by decide, by decide,
   claim_C1_no_duplicate_archiving (fun u => u) [okSyncStep, okSyncStep]
     trackerWithPendingA emptySyncState (sessKey sessionA)
     (by decide) (by decide)⟩

end ITracker
